import Mathlib

/-!
Shallow embedding of the SIF-400 Digital Twin core (arcaputo/SMART-DT).

The logic embedded here lives in the self-contained simulator variant of
`SIF400DigitalTwin.jsx` (the `=== sif ===` component, which is also the
file shipped under `frontend/src/`): the per-station bounded random walk,
trend buffer, anomaly detection with alert de-duplication, and the chat
handler that delegates to the external completion `window.claude.complete`.
The newer variant of the same file contributes the client-side threshold
state (default thresholds and the `updateThresholds` error path).  The
Python backend (`backend/app.py`, `backend/nlp_service.py`) is not among
the sources; where a claim is decided by backend behaviour (power
derivation, server-side threshold validation, the parametric classifier)
the missing part is modelled from the spec and marked
`Modelled from the spec:` in its doc comment.

JavaScript numbers are modelled as ℚ (every constant in the source is a
decimal fraction and the only operations used are +, *, comparisons and
clamping, which are exact on ℚ).  `new Date().toLocaleTimeString()` and
`Date.now()` inside one synchronous interval callback are modelled as a
single clock value `now : ℕ` supplied to the tick — `Date.now()` has
millisecond resolution, so distinct calls inside one tick may (and
typically do) return the same value; `Math.random()` draws are modelled as
arbitrary rational perturbation inputs.
-/

/-- One point of a station's trend buffer:
`{ voltage, current, timestamp }` as pushed in the simulation `useEffect`. -/
structure TrendPoint where
  voltage : ℚ
  current : ℚ
  timestamp : ℕ
deriving DecidableEq, Repr

/-- An alert record as appended by the anomaly-detection branch of the tick:
`{ id, station, type, message, timestamp }`.  `id` and `timestamp` are both
taken from the clock at creation time; the `toFixed(1)` numeric
interpolation of the message is elided (no claim depends on message text). -/
structure Alert where
  id : ℕ
  station : String
  type : String
  message : String
  timestamp : ℕ
deriving DecidableEq, Repr

/-- Per-station state held in `stationData`:
`{ voltage, current, status, trend }`. -/
structure StationState where
  voltage : ℚ
  current : ℚ
  status : String
  trend : List TrendPoint
deriving DecidableEq, Repr

/-- Whole simulator state: the `stationData` map (as an ordered association
list — `Object.keys` iterates in insertion order) plus the `alerts` list. -/
structure SimState where
  stations : List (String × StationState)
  alerts : List Alert
deriving DecidableEq, Repr

/-- `Math.max(lo, Math.min(hi, x))`. -/
def clampQ (lo hi x : ℚ) : ℚ :=
  max lo (min hi x)

/-- `array.slice(-n)` on a JavaScript array: the last `n` elements (the whole
array when it is shorter than `n`). -/
def sliceLast (n : ℕ) (xs : List α) : List α :=
  xs.drop (xs.length - n)

/-- `alerts.find(a => a.station === station && a.type === kind)` used as a
truthy de-duplication test. -/
def alertExists (alerts : List Alert) (station kind : String) : Bool :=
  alerts.any fun a => a.station == station && a.type == kind

/-- The status classification of the tick's anomaly-detection branch
(hard-coded bounds 216/224 for voltage, 14.5/15.8 for current): `warning`
when voltage is out of range, else `warning` when current is out of range,
else `normal`. -/
def classifyStation (voltage current : ℚ) : String :=
  if voltage < 216 ∨ voltage > 224 then "warning"
  else if current < 14.5 ∨ current > 15.8 then "warning"
  else "normal"

/-- One station's update inside the tick: bounded random walk with clamping
(`Math.max(215, Math.min(225, v + dv))`, `Math.max(14, Math.min(16, c + dc))`),
trend append capped at the last 20 points (`slice(-20)`), then anomaly
detection.  Returns the new station state together with the alert appended
for this station, if any; de-duplication consults `alerts0`, the alerts list
captured by the effect closure at the start of the tick. -/
def updateStation (now : ℕ) (dv dc : ℚ) (name : String) (s : StationState)
    (alerts0 : List Alert) : StationState × Option Alert :=
  let voltage := clampQ 215 225 (s.voltage + dv)
  let current := clampQ 14 16 (s.current + dc)
  let trend := sliceLast 20 (s.trend ++ [⟨voltage, current, now⟩])
  let status := classifyStation voltage current
  let alert : Option Alert :=
    if voltage < 216 ∨ voltage > 224 then
      if alertExists alerts0 name "voltage" then none
      else some ⟨now, name, "voltage", "Voltage anomaly detected", now⟩
    else if current < 14.5 ∨ current > 15.8 then
      if alertExists alerts0 name "current" then none
      else some ⟨now, name, "current", "Current anomaly detected", now⟩
    else none
  (⟨voltage, current, status, trend⟩, alert)

/-- One interval callback of the simulation `useEffect`: every station is
updated in key order against the alerts list as of the start of the tick,
and the alerts emitted during the tick are appended (each
`setAlerts(prev => [...prev, a])` is a functional append) in station order.
`pert` supplies the two `Math.random()`-derived perturbations per station. -/
def tick (now : ℕ) (pert : String → ℚ × ℚ) (st : SimState) : SimState :=
  let results := st.stations.map fun p =>
    (p.1, updateStation now (pert p.1).1 (pert p.1).2 p.1 p.2 st.alerts)
  { stations := results.map fun r => (r.1, r.2.1)
    alerts := st.alerts ++ results.filterMap fun r => r.2.2 }

/-- Run a sequence of ticks, each with its clock value and perturbations. -/
def run (inputs : List (ℕ × (String → ℚ × ℚ))) (st : SimState) : SimState :=
  inputs.foldl (fun s i => tick i.1 i.2 s) st

/-- The initial `stationData` of the sif component: four stations with fixed
in-range readings, status `normal` and empty trend buffers. -/
def initialStations : List (String × StationState) :=
  [("SIF-401", ⟨220, 15.2, "normal", []⟩),
   ("SIF-402", ⟨218, 14.8, "normal", []⟩),
   ("SIF-405", ⟨221, 15.5, "normal", []⟩),
   ("SIF-407", ⟨219, 15.1, "normal", []⟩)]

/-- Initial simulator state: the four stations above and `alerts = []`. -/
def initialState : SimState :=
  ⟨initialStations, []⟩

/-- The (station, kind) pair the tick's de-duplication keys on. -/
def alertKey (a : Alert) : String × String :=
  (a.station, a.type)

/- ### Chat handler (`handleChatSubmit`, sif component) -/

/-- One entry of `chatMessages`: `{ role, content }`. -/
structure ChatMsg where
  role : String
  content : String
deriving DecidableEq, Repr

/-- The chat-relevant component state: `chatMessages`, `inputMessage`,
`isLoading`. -/
structure ChatState where
  chatMessages : List ChatMsg
  inputMessage : String
  isLoading : Bool
deriving DecidableEq, Repr

/-- `v.toFixed(1)` for the non-negative values interpolated into the prompt:
round half up to one decimal digit and print. -/
def toFixed1 (q : ℚ) : String :=
  let n : ℤ := ⌊q * 10 + 1 / 2⌋
  toString (n / 10) ++ "." ++ toString (n % 10)

/-- The per-station line of the prompt's `stationContext`. -/
def stationLine (p : String × StationState) : String :=
  p.1 ++ ": Voltage=" ++ toFixed1 p.2.voltage ++ "V, Current=" ++
    toFixed1 p.2.current ++ "A, Status=" ++ p.2.status

/-- `stationContext`: the per-station lines joined with newlines. -/
def stationContext (stations : List (String × StationState)) : String :=
  String.intercalate "\n" (stations.map stationLine)

/-- The prompt template handed to `window.claude.complete`, rendered from the
live `stationData` and `alerts` snapshot and the user's message. -/
def buildPrompt (stations : List (String × StationState)) (alerts : List Alert)
    (userMessage : String) : String :=
  "You are a helpful assistant for the SIF-400 Digital Twin monitoring system.\n" ++
  "Current station readings:\n" ++ stationContext stations ++ "\n\n" ++
  "Active alerts: " ++
    (if alerts.length > 0 then String.intercalate ", " (alerts.map Alert.message)
     else "None") ++ "\n\n" ++
  "User question: " ++ userMessage ++ "\n\n" ++
  "Please provide a concise, helpful response about the voltage and current status of the stations."

/-- `handleChatSubmit`: bail out when the trimmed input is empty or a request
is in flight; otherwise clear the input, append the user message, obtain the
response from the external completion (`window.claude.complete`, modelled as
the oracle `complete`) applied to the rendered prompt, append it as the
assistant message, and clear `isLoading`. -/
def handleChatSubmit (complete : String → String)
    (stations : List (String × StationState)) (alerts : List Alert)
    (st : ChatState) : ChatState :=
  if st.inputMessage.trim = "" ∨ st.isLoading = true then st
  else
    { chatMessages := st.chatMessages ++
        [⟨"user", st.inputMessage⟩,
         ⟨"assistant", complete (buildPrompt stations alerts st.inputMessage)⟩]
      inputMessage := ""
      isLoading := false }

/- ### Threshold configuration (newer frontend variant + modelled backend) -/

/-- The threshold configuration `{ voltage_min, voltage_max, current_min,
current_max }`. -/
structure Thresholds where
  voltage_min : ℚ
  voltage_max : ℚ
  current_min : ℚ
  current_max : ℚ
deriving DecidableEq, Repr

/-- The client's initial thresholds (newer frontend variant):
`{216.0, 224.0, 14.5, 15.8}`. -/
def defaultThresholds : Thresholds :=
  ⟨216, 224, 14.5, 15.8⟩

/-- Modelled from the spec: the parametric classifier
`classify(reading, thresholds)` of the backend AnomalyDetector
(`backend/nlp_service.py` / `backend/app.py` are not among the sources):
`warning` if voltage is below `voltage_min` or above `voltage_max`; else
`warning` if current is outside `[current_min, current_max]`; else `normal`. -/
def classify (t : Thresholds) (voltage current : ℚ) : String :=
  if voltage < t.voltage_min ∨ voltage > t.voltage_max then "warning"
  else if current < t.current_min ∨ current > t.current_max then "warning"
  else "normal"

/-- Modelled from the spec: server-side handling of `PUT /api/thresholds`
(`backend/app.py` is not among the sources): the update is rejected with a
descriptive error and no mutation when `min >= max` for either pair;
otherwise the new configuration is stored and echoed back. -/
def putThresholds (req : Thresholds) : Except String Thresholds :=
  if req.voltage_min ≥ req.voltage_max then
    Except.error "voltage_min must be less than voltage_max"
  else if req.current_min ≥ req.current_max then
    Except.error "current_min must be less than current_max"
  else Except.ok req

/-- Client-side state touched by `updateThresholds` (newer frontend variant):
the applied `thresholds`, the edited `tempThresholds`, the config-panel
toggle and the chat transcript. -/
structure ClientState where
  thresholds : Thresholds
  tempThresholds : Thresholds
  showThresholdConfig : Bool
  chatMessages : List ChatMsg
deriving DecidableEq, Repr

/-- `updateThresholds`: `PUT` the edited `tempThresholds`; on success adopt
the echoed configuration, close the panel and post a success chat message;
on a rejected request post the server's error message and leave both the
server's and the client's threshold configuration unchanged.  The first
component of the result is the server's configuration after the request
(the server is modelled by `putThresholds`); message bodies are abbreviated
(no claim depends on their text). -/
def updateThresholds (server : Thresholds) (st : ClientState) :
    Thresholds × ClientState :=
  match putThresholds st.tempThresholds with
  | Except.ok newCfg =>
    (newCfg,
      { st with
          thresholds := newCfg
          showThresholdConfig := false
          chatMessages := st.chatMessages ++
            [⟨"assistant", "Threshold configuration updated successfully!"⟩] })
  | Except.error e =>
    (server,
      { st with
          chatMessages := st.chatMessages ++
            [⟨"assistant", "Error updating thresholds: " ++ e⟩] })

/- ### Backend telemetry with power (modelled) -/

/-- Modelled from the spec: the backend TelemetrySimulator's per-station
reading including the derived `power` field (`backend/app.py` is not among
the sources; the simulator variant embedded above carries no power field). -/
structure BackendReading where
  voltage : ℚ
  current : ℚ
  power : ℚ
deriving DecidableEq, Repr

/-- Modelled from the spec: one backend `tick()` step for a station —
`voltage' = clamp(voltage + dv, 215, 225)`, `current' = clamp(current + dc,
14, 16)`, `power' = voltage' * current'`, recomputed from the new voltage
and current on every update. -/
def backendTick (dv dc : ℚ) (r : BackendReading) : BackendReading :=
  let voltage := clampQ 215 225 (r.voltage + dv)
  let current := clampQ 14 16 (r.current + dc)
  ⟨voltage, current, voltage * current⟩

/-- Iterated backend ticks over a list of perturbation pairs. -/
def backendRun (ds : List (ℚ × ℚ)) (r : BackendReading) : BackendReading :=
  ds.foldl (fun r d => backendTick d.1 d.2 r) r

/- ### Basic lemmas about the embedded operations -/

theorem le_clampQ (lo hi x : ℚ) : lo ≤ clampQ lo hi x :=
  le_max_left _ _

theorem clampQ_le {lo hi : ℚ} (h : lo ≤ hi) (x : ℚ) : clampQ lo hi x ≤ hi :=
  max_le h (min_le_left _ _)

theorem sliceLast_length_le (n : ℕ) (xs : List α) : (sliceLast n xs).length ≤ n := by
  simp only [sliceLast, List.length_drop]
  omega

theorem updateStation_fst (now : ℕ) (dv dc : ℚ) (name : String) (s : StationState)
    (A : List Alert) :
    (updateStation now dv dc name s A).1 =
      ⟨clampQ 215 225 (s.voltage + dv), clampQ 14 16 (s.current + dc),
       classifyStation (clampQ 215 225 (s.voltage + dv)) (clampQ 14 16 (s.current + dc)),
       sliceLast 20 (s.trend ++
         [⟨clampQ 215 225 (s.voltage + dv), clampQ 14 16 (s.current + dc), now⟩])⟩ :=
  rfl

theorem updateStation_fst_indep (now : ℕ) (dv dc : ℚ) (name : String) (s : StationState)
    (A B : List Alert) :
    (updateStation now dv dc name s A).1 = (updateStation now dv dc name s B).1 :=
  rfl

theorem updateStation_alert (now : ℕ) (dv dc : ℚ) (name : String) (s : StationState)
    (A : List Alert) (a : Alert) (h : (updateStation now dv dc name s A).2 = some a) :
    a.station = name ∧ a.id = now ∧ (a.type = "voltage" ∨ a.type = "current") ∧
      alertExists A name a.type = false := by
  unfold updateStation at h
  simp only at h
  by_cases h1 : clampQ 215 225 (s.voltage + dv) < 216 ∨ clampQ 215 225 (s.voltage + dv) > 224
  · rw [if_pos h1] at h
    by_cases h2 : alertExists A name "voltage" = true
    · rw [if_pos h2] at h
      exact absurd h (by simp)
    · rw [if_neg h2] at h
      injection h with h
      subst h
      exact ⟨rfl, rfl, Or.inl rfl, by simpa using h2⟩
  · rw [if_neg h1] at h
    by_cases h3 : clampQ 14 16 (s.current + dc) < 14.5 ∨ clampQ 14 16 (s.current + dc) > 15.8
    · rw [if_pos h3] at h
      by_cases h4 : alertExists A name "current" = true
      · rw [if_pos h4] at h
        exact absurd h (by simp)
      · rw [if_neg h4] at h
        injection h with h
        subst h
        exact ⟨rfl, rfl, Or.inr rfl, by simpa using h4⟩
    · rw [if_neg h3] at h
      exact absurd h (by simp)

theorem tick_stations (now : ℕ) (pert : String → ℚ × ℚ) (st : SimState) :
    (tick now pert st).stations =
      st.stations.map fun p =>
        (p.1, (updateStation now (pert p.1).1 (pert p.1).2 p.1 p.2 st.alerts).1) := by
  simp only [tick, List.map_map]
  rfl

theorem tick_alerts (now : ℕ) (pert : String → ℚ × ℚ) (st : SimState) :
    (tick now pert st).alerts =
      st.alerts ++ st.stations.filterMap fun p =>
        (updateStation now (pert p.1).1 (pert p.1).2 p.1 p.2 st.alerts).2 := by
  simp only [tick, List.filterMap_map]
  rfl

theorem tick_stations_fst (now : ℕ) (pert : String → ℚ × ℚ) (st : SimState) :
    (tick now pert st).stations.map Prod.fst = st.stations.map Prod.fst := by
  rw [tick_stations, List.map_map]
  rfl

theorem run_cons (i : ℕ × (String → ℚ × ℚ)) (inputs : List (ℕ × (String → ℚ × ℚ)))
    (st : SimState) : run (i :: inputs) st = run inputs (tick i.1 i.2 st) :=
  rfl

theorem run_stations_fst (inputs : List (ℕ × (String → ℚ × ℚ))) (st : SimState) :
    (run inputs st).stations.map Prod.fst = st.stations.map Prod.fst := by
  induction inputs generalizing st with
  | nil => rfl
  | cons i rest ih => rw [run_cons, ih, tick_stations_fst]

theorem tick_alerts_grows (now : ℕ) (pert : String → ℚ × ℚ) (st : SimState) :
    st.alerts <+: (tick now pert st).alerts := by
  rw [tick_alerts]
  exact List.prefix_append _ _

theorem run_alerts_grows (inputs : List (ℕ × (String → ℚ × ℚ))) (st : SimState) :
    st.alerts <+: (run inputs st).alerts := by
  induction inputs generalizing st with
  | nil => exact List.prefix_refl _
  | cons i rest ih =>
    rw [run_cons]
    exact (tick_alerts_grows i.1 i.2 st).trans (ih _)

/- ### De-duplication invariant machinery -/

theorem pairwise_of_total {R : α → α → Prop} (h : ∀ a b, R a b) :
    ∀ l : List α, l.Pairwise R := by
  intro l
  induction l with
  | nil => exact List.Pairwise.nil
  | cons x xs ih => exact List.Pairwise.cons (fun y _ => h x y) ih

theorem alertExists_eq_false (A : List Alert) (s k : String)
    (h : alertExists A s k = false) :
    ∀ b ∈ A, ¬(b.station = s ∧ b.type = k) := by
  intro b hb hcontra
  rw [alertExists, List.any_eq_false] at h
  exact h b hb (by simp [hcontra.1, hcontra.2])

theorem mem_tick_new_alert (now : ℕ) (pert : String → ℚ × ℚ) (st : SimState)
    (a : Alert)
    (ha : a ∈ st.stations.filterMap fun p =>
      (updateStation now (pert p.1).1 (pert p.1).2 p.1 p.2 st.alerts).2) :
    a.id = now ∧ a.station ∈ st.stations.map Prod.fst ∧
      alertExists st.alerts a.station a.type = false := by
  rw [List.mem_filterMap] at ha
  obtain ⟨p, hp, hsome⟩ := ha
  obtain ⟨hstation, hid, _, hdedup⟩ :=
    updateStation_alert now (pert p.1).1 (pert p.1).2 p.1 p.2 st.alerts a hsome
  exact ⟨hid, by rw [hstation]; exact List.mem_map.2 ⟨p, hp, rfl⟩, hstation ▸ hdedup⟩

theorem tick_dedup (now : ℕ) (pert : String → ℚ × ℚ) (st : SimState)
    (hnames : (st.stations.map Prod.fst).Nodup)
    (hinv : st.alerts.Pairwise fun a b => alertKey a ≠ alertKey b) :
    (tick now pert st).alerts.Pairwise fun a b => alertKey a ≠ alertKey b := by
  rw [tick_alerts, List.pairwise_append]
  refine ⟨hinv, ?_, ?_⟩
  · rw [List.pairwise_filterMap]
    have hdistinct : st.stations.Pairwise fun p q => p.1 ≠ q.1 := by
      rw [List.Nodup, List.pairwise_map] at hnames
      exact hnames
    refine hdistinct.imp ?_
    intro p q hpq a hap b hbq
    obtain ⟨hsa, _, _, _⟩ :=
      updateStation_alert now (pert p.1).1 (pert p.1).2 p.1 p.2 st.alerts a hap
    obtain ⟨hsb, _, _, _⟩ :=
      updateStation_alert now (pert q.1).1 (pert q.1).2 q.1 q.2 st.alerts b hbq
    intro hk
    exact hpq (by rw [← hsa, ← hsb]; exact congrArg Prod.fst hk)
  · intro a ha b hb
    obtain ⟨_, _, hded⟩ := mem_tick_new_alert now pert st b hb
    intro hk
    exact alertExists_eq_false st.alerts b.station b.type hded a ha
      ⟨congrArg Prod.fst hk, congrArg Prod.snd hk⟩

theorem run_dedup (inputs : List (ℕ × (String → ℚ × ℚ))) (st : SimState)
    (hnames : (st.stations.map Prod.fst).Nodup)
    (hinv : st.alerts.Pairwise fun a b => alertKey a ≠ alertKey b) :
    (run inputs st).alerts.Pairwise fun a b => alertKey a ≠ alertKey b := by
  induction inputs generalizing st with
  | nil => exact hinv
  | cons i rest ih =>
    rw [run_cons]
    exact ih _ (by rw [tick_stations_fst]; exact hnames) (tick_dedup i.1 i.2 st hnames hinv)

/- ### Alert-id ordering machinery -/

theorem tick_alert_id_cases (now : ℕ) (pert : String → ℚ × ℚ) (st : SimState)
    (a : Alert) (ha : a ∈ (tick now pert st).alerts) :
    a ∈ st.alerts ∨ a.id = now := by
  rw [tick_alerts, List.mem_append] at ha
  rcases ha with h | h
  · exact Or.inl h
  · exact Or.inr (mem_tick_new_alert now pert st a h).1

theorem tick_ids_pairwise (now : ℕ) (pert : String → ℚ × ℚ) (st : SimState)
    (hst : st.alerts.Pairwise fun a b => a.id ≤ b.id)
    (hb : ∀ a ∈ st.alerts, a.id ≤ now) :
    (tick now pert st).alerts.Pairwise fun a b => a.id ≤ b.id := by
  rw [tick_alerts, List.pairwise_append]
  refine ⟨hst, ?_, ?_⟩
  · rw [List.pairwise_filterMap]
    refine pairwise_of_total ?_ _
    intro p q a hap b hbq
    obtain ⟨_, hida, _, _⟩ :=
      updateStation_alert now (pert p.1).1 (pert p.1).2 p.1 p.2 st.alerts a hap
    obtain ⟨_, hidb, _, _⟩ :=
      updateStation_alert now (pert q.1).1 (pert q.1).2 q.1 q.2 st.alerts b hbq
    rw [hida, hidb]
  · intro a ha b hb'
    obtain ⟨hidb, _, _⟩ := mem_tick_new_alert now pert st b hb'
    rw [hidb]
    exact hb a ha

theorem run_ids_pairwise (inputs : List (ℕ × (String → ℚ × ℚ))) (st : SimState)
    (hst : st.alerts.Pairwise fun a b => a.id ≤ b.id)
    (hb : ∀ a ∈ st.alerts, ∀ i ∈ inputs, a.id ≤ i.1)
    (hc : (inputs.map Prod.fst).Pairwise (· ≤ ·)) :
    (run inputs st).alerts.Pairwise fun a b => a.id ≤ b.id := by
  induction inputs generalizing st with
  | nil => exact hst
  | cons i rest ih =>
    rw [run_cons]
    rw [List.map_cons, List.pairwise_cons] at hc
    apply ih
    · exact tick_ids_pairwise i.1 i.2 st hst
        (fun a ha => hb a ha i (List.mem_cons_self _ _))
    · intro a ha j hj
      rcases tick_alert_id_cases i.1 i.2 st a ha with h | h
      · exact hb a h j (List.mem_cons_of_mem _ hj)
      · rw [h]
        exact hc.1 j.1 (List.mem_map.2 ⟨j, hj, rfl⟩)
    · exact hc.2

/- ### Claim theorems -/

/-- C10: at startup, before the first tick, the fleet consists of exactly the
four stations SIF-401, SIF-402, SIF-405, SIF-407, initialized with the fixed
in-range readings (voltages 220, 218, 221, 219; currents 15.2, 14.8, 15.5,
15.1), status `normal`, empty trend buffers, and an empty alert collection. -/
theorem c10_initial_fleet :
    initialState.stations.map Prod.fst = ["SIF-401", "SIF-402", "SIF-405", "SIF-407"] ∧
    (initialState.stations.map fun p => (p.2.voltage, p.2.current)) =
      [(220, 15.2), (218, 14.8), (221, 15.5), (219, 15.1)] ∧
    (initialState.stations.map fun p => p.2.status) =
      ["normal", "normal", "normal", "normal"] ∧
    (initialState.stations.map fun p => p.2.trend) = [[], [], [], []] ∧
    (initialState.stations.map fun p => classifyStation p.2.voltage p.2.current) =
      ["normal", "normal", "normal", "normal"] ∧
    initialState.alerts = [] :=
  ⟨rfl, rfl, rfl, rfl, by with_unfolding_all rfl, rfl⟩

/-- C5: after every tick, every station's voltage lies in [215, 225] and its
current in [14, 16] — the clamping establishes the bounds for arbitrary
perturbations, from any starting state. -/
theorem c5_reading_bounds (now : ℕ) (pert : String → ℚ × ℚ) (st : SimState)
    (p : String × StationState) (hp : p ∈ (tick now pert st).stations) :
    215 ≤ p.2.voltage ∧ p.2.voltage ≤ 225 ∧ 14 ≤ p.2.current ∧ p.2.current ≤ 16 := by
  rw [tick_stations] at hp
  obtain ⟨q, _, hq⟩ := List.mem_map.1 hp
  rw [← hq, updateStation_fst]
  exact ⟨le_clampQ _ _ _, clampQ_le (by norm_num) _, le_clampQ _ _ _,
    clampQ_le (by norm_num) _⟩

/-- Witness for C5: the tick of the initial state under zero perturbations
contains SIF-401 with in-range reading. -/
theorem c5_reading_bounds_witness :
    (("SIF-401", (⟨220, 15.2, "normal", [⟨220, 15.2, 1⟩]⟩ : StationState)) ∈
      (tick 1 (fun _ => ((0 : ℚ), (0 : ℚ))) initialState).stations) ∧
    (215 ≤ ((⟨220, 15.2, "normal", [⟨220, 15.2, 1⟩]⟩ : StationState)).voltage ∧
      ((⟨220, 15.2, "normal", [⟨220, 15.2, 1⟩]⟩ : StationState)).voltage ≤ 225 ∧
      14 ≤ ((⟨220, 15.2, "normal", [⟨220, 15.2, 1⟩]⟩ : StationState)).current ∧
      ((⟨220, 15.2, "normal", [⟨220, 15.2, 1⟩]⟩ : StationState)).current ≤ 16) :=
  have hmem : ("SIF-401", (⟨220, 15.2, "normal", [⟨220, 15.2, 1⟩]⟩ : StationState)) ∈
      (tick 1 (fun _ => ((0 : ℚ), (0 : ℚ))) initialState).stations := by
    rw [show (tick 1 (fun _ => ((0 : ℚ), (0 : ℚ))) initialState).stations =
      [("SIF-401", ⟨220, 15.2, "normal", [⟨220, 15.2, 1⟩]⟩),
       ("SIF-402", ⟨218, 14.8, "normal", [⟨218, 14.8, 1⟩]⟩),
       ("SIF-405", ⟨221, 15.5, "normal", [⟨221, 15.5, 1⟩]⟩),
       ("SIF-407", ⟨219, 15.1, "normal", [⟨219, 15.1, 1⟩]⟩)] from
      by with_unfolding_all rfl]
    exact List.mem_cons_self _ _
  ⟨hmem, c5_reading_bounds 1 (fun _ => ((0 : ℚ), (0 : ℚ))) initialState _ hmem⟩

/-- C1: for every reading produced by the (spec-modelled) backend simulator —
the latest reading after any number of ticks, or any run started from a
reading whose power is consistent — the power field equals the product of
that same reading's voltage and current, recomputed on every update. -/
theorem c1_power_product (ds : List (ℚ × ℚ)) (r : BackendReading)
    (h : ds ≠ [] ∨ r.power = r.voltage * r.current) :
    (backendRun ds r).power = (backendRun ds r).voltage * (backendRun ds r).current := by
  induction ds generalizing r with
  | nil =>
    rcases h with h | h
    · exact absurd rfl h
    · exact h
  | cons d rest ih =>
    rw [show backendRun (d :: rest) r = backendRun rest (backendTick d.1 d.2 r) from rfl]
    exact ih _ (Or.inr rfl)

/-- Witness for C1: one backend tick from an arbitrary (even inconsistent)
reading yields power = voltage * current. -/
theorem c1_power_product_witness :
    (([((1 : ℚ), (0 : ℚ))] ≠ ([] : List (ℚ × ℚ)) ∨
      (⟨220, 15, 0⟩ : BackendReading).power = 220 * 15) ∧
    (backendRun [((1 : ℚ), (0 : ℚ))] ⟨220, 15, 0⟩).power =
      (backendRun [((1 : ℚ), (0 : ℚ))] ⟨220, 15, 0⟩).voltage *
        (backendRun [((1 : ℚ), (0 : ℚ))] ⟨220, 15, 0⟩).current) :=
  ⟨Or.inl (List.cons_ne_nil _ _),
    c1_power_product [((1 : ℚ), (0 : ℚ))] ⟨220, 15, 0⟩ (Or.inl (List.cons_ne_nil _ _))⟩

/-- C3: classification yields `warning` when voltage is out of range,
otherwise `warning` when current is out of range, otherwise `normal`; the
voltage check takes precedence, and the in-source detector agrees with the
parametric classifier at the default thresholds; when both measurements are
out of range the alert emitted by the tick (if any) is of kind `voltage`,
so at most one alert kind fires on such a tick. -/
theorem c3_classify_precedence (t : Thresholds) (v c : ℚ) :
    ((v < t.voltage_min ∨ v > t.voltage_max) → classify t v c = "warning") ∧
    (t.voltage_min ≤ v → v ≤ t.voltage_max →
      (c < t.current_min ∨ c > t.current_max) → classify t v c = "warning") ∧
    (t.voltage_min ≤ v → v ≤ t.voltage_max → t.current_min ≤ c → c ≤ t.current_max →
      classify t v c = "normal") ∧
    classifyStation v c = classify defaultThresholds v c ∧
    (∀ (now : ℕ) (dv dc : ℚ) (name : String) (s : StationState) (A : List Alert)
      (a : Alert), (updateStation now dv dc name s A).2 = some a →
      (clampQ 215 225 (s.voltage + dv) < 216 ∨ clampQ 215 225 (s.voltage + dv) > 224) →
      a.type = "voltage") := by
  refine ⟨?_, ?_, ?_, rfl, ?_⟩
  · intro h
    rw [classify, if_pos h]
  · intro h1 h2 h3
    rw [classify, if_neg (by push_neg; exact ⟨h1, h2⟩), if_pos h3]
  · intro h1 h2 h3 h4
    rw [classify, if_neg (by push_neg; exact ⟨h1, h2⟩), if_neg (by push_neg; exact ⟨h3, h4⟩)]
  · intro now dv dc name s A a ha hv
    obtain ⟨_, _, htype, _⟩ := updateStation_alert now dv dc name s A a ha
    rcases htype with h | h
    · exact h
    · exfalso
      unfold updateStation at ha
      simp only at ha
      rw [if_pos hv] at ha
      by_cases hex : alertExists A name "voltage" = true
      · rw [if_pos hex] at ha
        exact absurd ha (by simp)
      · rw [if_neg hex] at ha
        injection ha with ha
        subst ha
        exact absurd h (by simp)

/-- Witness for C3: at the default thresholds, voltage 225 is classified as
a warning. -/
theorem c3_classify_precedence_witness :
    ((225 : ℚ) < defaultThresholds.voltage_min ∨
      (225 : ℚ) > defaultThresholds.voltage_max) ∧
    classify defaultThresholds 225 15 = "warning" :=
  have h : ((225 : ℚ) < defaultThresholds.voltage_min ∨
      (225 : ℚ) > defaultThresholds.voltage_max) :=
    Or.inr (by norm_num [defaultThresholds])
  ⟨h, (c3_classify_precedence defaultThresholds 225 15).1 h⟩

/-- C4: in every reachable state the alert collection holds at most one alert
per (station, kind) pair — a new alert is appended only when none with the
same key exists — and concretely, pushing SIF-401's voltage to 225 (out of
the default 216/224 range) appends exactly one alert on the first breach and
no duplicate on a second tick with the voltage still out of range. -/
theorem c4_alert_dedup (inputs : List (ℕ × (String → ℚ × ℚ))) :
    ((run inputs initialState).alerts.Pairwise fun a b => alertKey a ≠ alertKey b) ∧
    (run [(1, fun n => if n = "SIF-401" then ((10 : ℚ), (0 : ℚ)) else (0, 0)),
          (2, fun n => if n = "SIF-401" then ((10 : ℚ), (0 : ℚ)) else (0, 0))]
        initialState).alerts =
      [⟨1, "SIF-401", "voltage", "Voltage anomaly detected", 1⟩] := by
  constructor
  · exact run_dedup inputs initialState (by decide) List.Pairwise.nil
  · with_unfolding_all rfl

/-- C6: a station's trend buffer never exceeds 20 entries; each tick appends
the new reading and keeps the last 20 (`slice(-20)`, FIFO, oldest evicted
first); after 25 ticks the buffer holds exactly the readings of ticks 6..25
in chronological order. -/
theorem c6_trend_buffer :
    (∀ (now : ℕ) (pert : String → ℚ × ℚ) (st : SimState),
      ∀ p ∈ (tick now pert st).stations, p.2.trend.length ≤ 20) ∧
    (∀ (now : ℕ) (dv dc : ℚ) (name : String) (s : StationState) (A : List Alert),
      (updateStation now dv dc name s A).1.trend =
        sliceLast 20 (s.trend ++
          [⟨clampQ 215 225 (s.voltage + dv), clampQ 14 16 (s.current + dc), now⟩])) ∧
    ((run ((List.range 25).map fun i => (i + 1, fun _ => ((0 : ℚ), (0 : ℚ))))
        initialState).stations.map fun p => p.2.trend.length) = [20, 20, 20, 20] ∧
    ((run ((List.range 25).map fun i => (i + 1, fun _ => ((0 : ℚ), (0 : ℚ))))
        initialState).stations.map fun p => p.2.trend.map TrendPoint.timestamp) =
      [[6, 7, 8, 9, 10, 11, 12, 13, 14, 15, 16, 17, 18, 19, 20, 21, 22, 23, 24, 25],
       [6, 7, 8, 9, 10, 11, 12, 13, 14, 15, 16, 17, 18, 19, 20, 21, 22, 23, 24, 25],
       [6, 7, 8, 9, 10, 11, 12, 13, 14, 15, 16, 17, 18, 19, 20, 21, 22, 23, 24, 25],
       [6, 7, 8, 9, 10, 11, 12, 13, 14, 15, 16, 17, 18, 19, 20, 21, 22, 23, 24, 25]] := by
  refine ⟨?_, fun now dv dc name s A => rfl, ?_, ?_⟩
  · intro now pert st p hp
    rw [tick_stations] at hp
    obtain ⟨q, _, hq⟩ := List.mem_map.1 hp
    rw [← hq, updateStation_fst]
    exact sliceLast_length_le _ _
  · with_unfolding_all rfl
  · with_unfolding_all rfl

/-- Witness for C6: after one tick of the initial state, SIF-401's trend
buffer has a single entry, within the 20-entry bound. -/
theorem c6_trend_buffer_witness :
    (("SIF-401", (⟨220, 15.2, "normal", [⟨220, 15.2, 1⟩]⟩ : StationState)) ∈
      (tick 1 (fun _ => ((0 : ℚ), (0 : ℚ))) initialState).stations) ∧
    ((⟨220, 15.2, "normal", [⟨220, 15.2, 1⟩]⟩ : StationState)).trend.length ≤ 20 :=
  have hmem : ("SIF-401", (⟨220, 15.2, "normal", [⟨220, 15.2, 1⟩]⟩ : StationState)) ∈
      (tick 1 (fun _ => ((0 : ℚ), (0 : ℚ))) initialState).stations := by
    rw [show (tick 1 (fun _ => ((0 : ℚ), (0 : ℚ))) initialState).stations =
      [("SIF-401", ⟨220, 15.2, "normal", [⟨220, 15.2, 1⟩]⟩),
       ("SIF-402", ⟨218, 14.8, "normal", [⟨218, 14.8, 1⟩]⟩),
       ("SIF-405", ⟨221, 15.5, "normal", [⟨221, 15.5, 1⟩]⟩),
       ("SIF-407", ⟨219, 15.1, "normal", [⟨219, 15.1, 1⟩]⟩)] from
      by with_unfolding_all rfl]
    exact List.mem_cons_self _ _
  ⟨hmem, c6_trend_buffer.1 1 (fun _ => ((0 : ℚ), (0 : ℚ))) initialState _ hmem⟩

/-- C9: on every tick each station's status is recomputed solely from the new
reading (independently of the alert collection and the previous status),
returning to `normal` when both measurements are back in range, while the
alert collection only ever grows (the prior alerts are a prefix of the new
ones, and no operation removes them) — concretely, after a breach on tick 1
and a return into range on tick 2, SIF-401 reports `normal` while its
voltage alert is still listed. -/
theorem c9_status_recomputed_alerts_permanent :
    (∀ (now : ℕ) (pert : String → ℚ × ℚ) (st : SimState),
      st.alerts <+: (tick now pert st).alerts) ∧
    (∀ (inputs : List (ℕ × (String → ℚ × ℚ))) (st : SimState),
      st.alerts <+: (run inputs st).alerts) ∧
    (∀ (now : ℕ) (dv dc : ℚ) (name : String) (s : StationState) (A B : List Alert),
      (updateStation now dv dc name s A).1 = (updateStation now dv dc name s B).1) ∧
    (∀ (now : ℕ) (dv dc : ℚ) (name : String) (s : StationState) (A : List Alert),
      (updateStation now dv dc name s A).1.status =
        classifyStation (clampQ 215 225 (s.voltage + dv)) (clampQ 14 16 (s.current + dc))) ∧
    ((run [(1, fun n => if n = "SIF-401" then ((10 : ℚ), (0 : ℚ)) else (0, 0)),
           (2, fun n => if n = "SIF-401" then ((-3 : ℚ), (0 : ℚ)) else (0, 0))]
        initialState).stations.map fun p => p.2.status) =
      ["normal", "normal", "normal", "normal"] ∧
    (run [(1, fun n => if n = "SIF-401" then ((10 : ℚ), (0 : ℚ)) else (0, 0)),
          (2, fun n => if n = "SIF-401" then ((-3 : ℚ), (0 : ℚ)) else (0, 0))]
        initialState).alerts =
      [⟨1, "SIF-401", "voltage", "Voltage anomaly detected", 1⟩] := by
  refine ⟨tick_alerts_grows, run_alerts_grows, fun _ _ _ _ _ _ _ => rfl,
    fun _ _ _ _ _ _ => rfl, ?_, ?_⟩
  · with_unfolding_all rfl
  · with_unfolding_all rfl

/-- C7 counterexample: two alerts created during the same tick (stations
SIF-401 and SIF-402 both breach voltage at clock 5) receive equal
identifiers — the id sequence is [5, 5], so the later alert's id is not
strictly greater than the earlier one's. -/
theorem c7_counterexample :
    ((run [(5, fun n => if n = "SIF-401" ∨ n = "SIF-402" then ((10 : ℚ), (0 : ℚ))
        else (0, 0))] initialState).alerts.map Alert.id) = [5, 5] ∧
    ¬ List.Chain' (· < ·)
      ((run [(5, fun n => if n = "SIF-401" ∨ n = "SIF-402" then ((10 : ℚ), (0 : ℚ))
        else (0, 0))] initialState).alerts.map Alert.id) := by
  have h : ((run [(5, fun n => if n = "SIF-401" ∨ n = "SIF-402" then ((10 : ℚ), (0 : ℚ))
      else (0, 0))] initialState).alerts.map Alert.id) = [5, 5] := by
    with_unfolding_all rfl
  refine ⟨h, ?_⟩
  rw [h]
  simp [List.chain'_cons]

/-- C7 (amended): alert identifiers are non-decreasing in append order — each
id is the clock at creation (`Date.now()`), so for every run whose tick
clocks are non-decreasing, any later alert's id is greater than or equal to
any earlier alert's id; equality occurs when two alerts are created at the
same clock value (e.g. in the same tick). -/
theorem c7_amended_ids_monotone (inputs : List (ℕ × (String → ℚ × ℚ)))
    (hc : (inputs.map Prod.fst).Pairwise (· ≤ ·)) :
    (run inputs initialState).alerts.Pairwise fun a b => a.id ≤ b.id :=
  run_ids_pairwise inputs initialState List.Pairwise.nil
    (fun a ha => absurd ha (List.not_mem_nil a)) hc

/-- Witness for C7 (amended): a two-tick run with increasing clocks has
non-decreasing alert ids. -/
theorem c7_amended_ids_monotone_witness :
    ((([((1 : ℕ), fun _ => ((10 : ℚ), (0 : ℚ))),
        ((2 : ℕ), fun _ => ((10 : ℚ), (0 : ℚ)))] :
          List (ℕ × (String → ℚ × ℚ))).map Prod.fst).Pairwise (· ≤ ·)) ∧
    ((run [((1 : ℕ), fun _ => ((10 : ℚ), (0 : ℚ))),
           ((2 : ℕ), fun _ => ((10 : ℚ), (0 : ℚ)))] initialState).alerts.Pairwise
      fun a b => a.id ≤ b.id) :=
  ⟨by decide, c7_amended_ids_monotone _ (by decide)⟩

/-- C2 counterexample: with the same query text and the same snapshot of
stations and alerts, the chat handler returns different responses under two
behaviours of the external completion `window.claude.complete` — the
response is not a pure function of (query, snapshot): the language
understanding is delegated to the external model, not computed by a
deterministic rule-based engine. -/
theorem c2_counterexample :
    handleChatSubmit (fun _ => "All stations are operating normally.")
        initialStations [] ⟨[], "any alerts?", false⟩ ≠
      handleChatSubmit (fun _ => "SIF-402 voltage is critical.")
        initialStations [] ⟨[], "any alerts?", false⟩ :=
  of_decide_eq_false (by with_unfolding_all rfl)

/-- C2 (amended): for each fixed behaviour of the external completion, the
chat handler is a deterministic function of (query text, snapshot):
submitting a non-empty query while no request is in flight appends exactly
the user message and the completion of the prompt rendered from the live
snapshot, clearing the input and the loading flag; all snapshot dependence
is through the rendered prompt. -/
theorem c2_amended_deterministic_given_oracle (complete : String → String)
    (stations : List (String × StationState)) (alerts : List Alert) (st : ChatState)
    (h1 : ¬ st.inputMessage.trim = "") (h2 : st.isLoading = false) :
    handleChatSubmit complete stations alerts st =
      ⟨st.chatMessages ++
        [⟨"user", st.inputMessage⟩,
         ⟨"assistant", complete (buildPrompt stations alerts st.inputMessage)⟩],
       "", false⟩ := by
  have hcond : ¬(st.inputMessage.trim = "" ∨ st.isLoading = true) := by
    rintro (h | h)
    · exact h1 h
    · rw [h2] at h
      exact Bool.false_ne_true h
  unfold handleChatSubmit
  rw [if_neg hcond]

/-- Witness for C2 (amended): submitting "any alerts?" against the initial
snapshot under a fixed completion behaviour. -/
theorem c2_amended_deterministic_given_oracle_witness :
    (¬ ("any alerts?" : String).trim = "") ∧
    handleChatSubmit (fun _ => "No active alerts.") initialStations []
        ⟨[], "any alerts?", false⟩ =
      ⟨[⟨"user", "any alerts?"⟩, ⟨"assistant", "No active alerts."⟩], "", false⟩ :=
  have h1 : ¬ ("any alerts?" : String).trim = "" :=
    of_decide_eq_false (by with_unfolding_all rfl)
  ⟨h1, c2_amended_deterministic_given_oracle (fun _ => "No active alerts.")
    initialStations [] ⟨[], "any alerts?", false⟩ h1 rfl⟩

/-- C8: a threshold update whose voltage pair or current pair has min ≥ max
is rejected with an error and causes no mutation — the server's
configuration and the client's applied thresholds are unchanged, and the
client surfaces the error message in the chat transcript. -/
theorem c8_reject_invalid_thresholds (server : Thresholds) (st : ClientState)
    (h : st.tempThresholds.voltage_min ≥ st.tempThresholds.voltage_max ∨
         st.tempThresholds.current_min ≥ st.tempThresholds.current_max) :
    (updateThresholds server st).1 = server ∧
    (updateThresholds server st).2.thresholds = st.thresholds ∧
    ∃ e, putThresholds st.tempThresholds = Except.error e ∧
      (updateThresholds server st).2.chatMessages =
        st.chatMessages ++ [⟨"assistant", "Error updating thresholds: " ++ e⟩] := by
  by_cases h1 : st.tempThresholds.voltage_min ≥ st.tempThresholds.voltage_max
  · have hput : putThresholds st.tempThresholds =
        Except.error "voltage_min must be less than voltage_max" := by
      rw [putThresholds, if_pos h1]
    unfold updateThresholds
    rw [hput]
    exact ⟨rfl, rfl, _, rfl, rfl⟩
  · have hput : putThresholds st.tempThresholds =
        Except.error "current_min must be less than current_max" := by
      rw [putThresholds, if_neg h1, if_pos (h.resolve_left h1)]
    unfold updateThresholds
    rw [hput]
    exact ⟨rfl, rfl, _, rfl, rfl⟩

/-- Witness for C8: the claim's concrete request `{voltage_min: 230,
voltage_max: 220}` is rejected and the prior default configuration is
unchanged. -/
theorem c8_reject_invalid_thresholds_witness :
    ((⟨230, 220, 14.5, 15.8⟩ : Thresholds).voltage_min ≥
        (⟨230, 220, 14.5, 15.8⟩ : Thresholds).voltage_max ∨
      (⟨230, 220, 14.5, 15.8⟩ : Thresholds).current_min ≥
        (⟨230, 220, 14.5, 15.8⟩ : Thresholds).current_max) ∧
    ((updateThresholds defaultThresholds
        ⟨defaultThresholds, ⟨230, 220, 14.5, 15.8⟩, true, []⟩).1 = defaultThresholds ∧
      (updateThresholds defaultThresholds
        ⟨defaultThresholds, ⟨230, 220, 14.5, 15.8⟩, true, []⟩).2.thresholds =
          defaultThresholds ∧
      ∃ e, putThresholds ⟨230, 220, 14.5, 15.8⟩ = Except.error e ∧
        (updateThresholds defaultThresholds
          ⟨defaultThresholds, ⟨230, 220, 14.5, 15.8⟩, true, []⟩).2.chatMessages =
          [] ++ [⟨"assistant", "Error updating thresholds: " ++ e⟩]) :=
  have h : ((⟨230, 220, 14.5, 15.8⟩ : Thresholds).voltage_min ≥
      (⟨230, 220, 14.5, 15.8⟩ : Thresholds).voltage_max ∨
    (⟨230, 220, 14.5, 15.8⟩ : Thresholds).current_min ≥
      (⟨230, 220, 14.5, 15.8⟩ : Thresholds).current_max) :=
    Or.inl (show (230 : ℚ) ≥ 220 by norm_num)
  ⟨h, c8_reject_invalid_thresholds defaultThresholds
    ⟨defaultThresholds, ⟨230, 220, 14.5, 15.8⟩, true, []⟩ h⟩
